import Mathlib

/-
Shallow embedding of the authoritative multiplayer server of Orb.io
("Orb Battle.io", file `server.js` of the repository).

Modelling conventions:
* JavaScript IEEE-754 numbers are modelled as exact rationals (ℚ).  Every
  arithmetic expression is translated literally from the source; the literals
  `1.1`, `0.7`, `0.02`, `2.5`, `1.5`, `0.3`, `0.5` denote the corresponding
  rationals.
* The source compares Euclidean distances via `Math.sqrt(dx*dx+dy*dy) < t`.
  Over the reals this is equivalent to `0 ≤ t ∧ dx*dx+dy*dy < t*t`, which is
  how the test is embedded (`sqLtB`), keeping everything inside ℚ.
* Calls to `Math.random()` (and random id strings) are modelled by explicit
  parameters carrying the drawn values; `Date.now()` is an explicit `now`
  parameter.
* `io.to(room.id).emit(...)` side effects are modelled by returning the
  emitted event as part of the function's result.
* JavaScript `player.invulnTime` is a number that is `0` (or absent, for
  bots) when no invulnerability window is active; the guard
  `b.invulnTime && b.invulnTime > now` is embedded as
  `invulnTime ≠ 0 ∧ now < invulnTime`.
-/

namespace OrbIoServer

/-- The four dimension tags of `CONFIG.DIMENSIONS`. -/
inductive Dim where
  | FEAST
  | ANTI_GRAVITY
  | MIRROR_MAZE
  | SPEED
deriving DecidableEq, Inhabited

/-- Constant `CONFIG.worldWidth` (= `CONFIG.worldHeight` = 2000). -/
def worldWidth : ℚ := 2000

/-- World size of the active dimension: for a player/bot/orb in dimension
`d`, the source computes
`const config = d ? CONFIG.DIMENSIONS[d] : \x7b worldSize: CONFIG.worldWidth \x7d;
 const worldSize = config.worldSize || CONFIG.worldWidth;`.
`none` is the primary world (dimension `null`). -/
def worldSizeOf : Option Dim → ℚ
  | none => worldWidth
  | some .FEAST => 1000
  | some .ANTI_GRAVITY => 1500
  | some .MIRROR_MAZE => 800
  | some .SPEED => 1200

/-- Exact embedding of `Math.sqrt (dx*dx + dy*dy) < t` over the reals:
the square root is nonnegative, so the comparison holds iff `t` is
nonnegative and `dx*dx + dy*dy < t*t`. -/
def sqLtB (dx dy t : ℚ) : Bool :=
  decide (0 ≤ t) && decide (dx * dx + dy * dy < t * t)

/-- A player or bot record (`createPlayer` / `createBot` in the source).
Players and bots are handled uniformly by the collision code; a bot has no
`invulnTime` / `dimensionTimer` property, which JavaScript reads as the
falsy `undefined`, embedded as the value `0`. -/
structure Entity where
  id : String
  name : String
  x : ℚ
  y : ℚ
  size : ℚ
  score : ℚ
  alive : Bool
  respawnTime : Option ℚ
  dimension : Option Dim
  dimensionTimer : ℚ
  invulnTime : ℚ
deriving DecidableEq, Inhabited

/-- A collectible orb (`createOrb` in the source). -/
structure Orb where
  id : String
  x : ℚ
  y : ℚ
  size : ℚ
  dimension : Option Dim
deriving DecidableEq, Inhabited

/-- The random draws consumed by one call of `createOrb`: the random id
string and the three `Math.random()` values used for `x`, `y` and `size`. -/
structure OrbRand where
  idStr : String
  rx : ℚ
  ry : ℚ
  rs : ℚ
deriving DecidableEq, Inhabited

/-- Function `createOrb(index, dimension)`: a fresh orb at a random position of the
dimension's world, with random size `8 + Math.random()*6`, carrying the
same dimension tag. -/
def createOrb (r : OrbRand) (dimension : Option Dim) : Orb :=
  { id := r.idStr
    x := r.rx * worldSizeOf dimension
    y := r.ry * worldSizeOf dimension
    size := 8 + r.rs * 6
    dimension := dimension }

/-- The per-orb collision test of `checkPlayerOrbCollisions`: same
dimension and `dist < entity.size + orb.size + 25`. -/
def orbHit (e : Entity) (o : Orb) : Bool :=
  decide (e.dimension = o.dimension) &&
    sqLtB (e.x - o.x) (e.y - o.y) (e.size + o.size + 25)

/-- The source scans `room.orbs` with `for (let i = room.orbs.length - 1;
i >= 0; i--)` and collects the first hit found from the end.  `pickLast`
returns the remaining list (order preserved) together with the collected
orb, or `none` when no orb collides. -/
def pickLast (e : Entity) : List Orb → Option (List Orb × Orb)
  | [] => none
  | o :: os =>
    match pickLast e os with
    | some (os', hit) => some (o :: os', hit)
    | none => if orbHit e o then some (os, o) else none

/-- The `orbCollected` event emitted on a resolved pickup. -/
structure OrbEvent where
  orbId : String
  newOrb : Orb
  playerId : String
  newSize : ℚ
  newScore : ℚ
deriving DecidableEq, Inhabited

/-- Function `checkPlayerOrbCollisions(room, entity)`: the last colliding orb (in
scan order) is removed, the entity grows by `1.5` and gains
`CONFIG.orbValue = 10` score, and a freshly created orb in the *same*
dimension is pushed onto the list; at most one orb is collected per call. -/
def checkPlayerOrbCollisions (r : OrbRand) (e : Entity) (orbs : List Orb) :
    Entity × List Orb × Option OrbEvent :=
  match pickLast e orbs with
  | none => (e, orbs, none)
  | some (os', hit) =>
    let e' := { e with size := e.size + 1.5, score := e.score + 10 }
    let newOrb := createOrb r hit.dimension
    (e', os' ++ [newOrb],
      some { orbId := hit.id, newOrb := newOrb, playerId := e.id,
             newSize := e'.size, newScore := e'.score })

/-- Number of orbs carrying dimension tag `d`. -/
def countDim (d : Option Dim) (orbs : List Orb) : ℕ :=
  orbs.countP (fun o => o.dimension = d)

/-- One collection step of a sequence: the entity and the random draws of
the step act on the room's orb list. -/
def collectStep (orbs : List Orb) (step : OrbRand × Entity) : List Orb :=
  (checkPlayerOrbCollisions step.1 step.2 orbs).2.1

/-- An arbitrary sequence of collection events acting on the orb list. -/
def collectFold (steps : List (OrbRand × Entity)) (orbs : List Orb) :
    List Orb :=
  steps.foldl collectStep orbs

/-- Outcome of examining one pair `(a, b)` in the entity-vs-entity
collision loop of `updateGame`. -/
inductive PairOutcome where
  | firstAbsorbsSecond
  | secondAbsorbsFirst
  | noAbsorb
deriving DecidableEq, Inhabited

/-- Swapping the roles of a pair. -/
def swapOutcome : PairOutcome → PairOutcome
  | .firstAbsorbsSecond => .secondAbsorbsFirst
  | .secondAbsorbsFirst => .firstAbsorbsSecond
  | .noAbsorb => .noAbsorb

/-- The invulnerability guard `e.invulnTime && e.invulnTime > now` of
`updateGame` (a `0` or absent `invulnTime` is falsy in JavaScript). -/
def invulnActive (now : ℚ) (e : Entity) : Bool :=
  decide (e.invulnTime ≠ 0) && decide (now < e.invulnTime)

/-- The decision taken for one pair in the absorption loop of
`updateGame`: same dimension, distance below
`Math.max(a.size, b.size) * 0.7`, then the `1.1` ratio test in each
direction; the invulnerability of the entity that would be consumed makes
the loop `continue` (skip the pair). -/
def pairOutcome (now : ℚ) (a b : Entity) : PairOutcome :=
  if a.dimension ≠ b.dimension then .noAbsorb
  else if sqLtB (a.x - b.x) (a.y - b.y) (max a.size b.size * 0.7) then
    if a.size > b.size * 1.1 then
      if invulnActive now b then .noAbsorb else .firstAbsorbsSecond
    else if b.size > a.size * 1.1 then
      if invulnActive now a then .noAbsorb else .secondAbsorbsFirst
    else .noAbsorb
  else .noAbsorb

/-- An absorption event of one tick, recorded by its examined snapshot
pair `(i, j)` (with `i < j`) and the direction: `firstIsAbsorber` is true
when entity `i` absorbed entity `j`. -/
structure AbsEvent where
  pair : ℕ × ℕ
  firstIsAbsorber : Bool
deriving DecidableEq, Inhabited

/-- Snapshot index of the absorbing entity of an event. -/
def absorberOf (ev : AbsEvent) : ℕ :=
  if ev.firstIsAbsorber then ev.pair.1 else ev.pair.2

/-- Snapshot index of the absorbed entity of an event. -/
def absorbedOf (ev : AbsEvent) : ℕ :=
  if ev.firstIsAbsorber then ev.pair.2 else ev.pair.1

/-- The absorbed entity's mutation in `absorbEntity`: it dies and gets
`respawnTime = Date.now() + 3000`. -/
def absorbedUpd (now : ℚ) (b : Entity) : Entity :=
  { b with alive := false, respawnTime := some (now + 3000) }

/-- The absorber's mutation of `absorbEntity`: it grows by
`absorbed.size * 0.3` and scores
`Math.floor(CONFIG.absorptionBaseValue * sizeRatio)` where
`sizeRatio = absorbed.size / absorber.size` is read before the growth
(`CONFIG.absorptionBaseValue = 50`). -/
def absorberUpd (a b : Entity) : Entity :=
  { a with
    size := a.size + b.size * 0.3,
    score := a.score + ((Int.floor (50 * (b.size / a.size)) : ℤ) : ℚ) }

/-- Whole effect of `absorbEntity(room, absorber, absorbed)` on the entity
snapshot; `ai` and `bi` are the snapshot indices of absorber and
absorbed (distinct in every call the loop makes). -/
def applyAbsorb (now : ℚ) (ents : List Entity) (ai bi : ℕ) : List Entity :=
  (ents.set bi (absorbedUpd now (ents.getD bi default))).set ai
    (absorberUpd (ents.getD ai default) (ents.getD bi default))

/-- State threaded through the pairwise absorption loop: the (mutated)
entity snapshot and the `playerAbsorbed` events emitted so far. -/
structure PassState where
  ents : List Entity
  events : List AbsEvent
deriving DecidableEq, Inhabited

/-- One iteration of the double loop: examine pair `ij` on the current
(already mutated) entities and resolve it. -/
def absorbStep (now : ℚ) (st : PassState) (ij : ℕ × ℕ) : PassState :=
  let a := st.ents.getD ij.1 default
  let b := st.ents.getD ij.2 default
  match pairOutcome now a b with
  | .firstAbsorbsSecond =>
    ⟨applyAbsorb now st.ents ij.1 ij.2, st.events ++ [⟨ij, true⟩]⟩
  | .secondAbsorbsFirst =>
    ⟨applyAbsorb now st.ents ij.2 ij.1, st.events ++ [⟨ij, false⟩]⟩
  | .noAbsorb => st

/-- The index pairs `(i, j)`, `i < j`, in the order the double loop
`for (i …) for (j = i+1 …)` of `updateGame` visits them. -/
def allPairs (n : ℕ) : List (ℕ × ℕ) :=
  ((List.range n).product (List.range n)).filter (fun p => p.1 < p.2)

/-- The full pairwise absorption resolution of one tick of `updateGame`,
acting on the snapshot `allEntities` (the players and bots that were alive
when the snapshot was filtered).  The alive flag is *not* re-checked
inside the loop. -/
def absorptionPass (now : ℚ) (ents : List Entity) : PassState :=
  (allPairs ents.length).foldl (absorbStep now) ⟨ents, []⟩

/-- Three overlapping entities of the primary world, sizes 100, 50 and 20,
none invulnerable: a concrete snapshot for one tick. -/
def chainEnts : List Entity :=
  [{ id := "pA", name := "A", x := 0, y := 0, size := 100, score := 0,
     alive := true, respawnTime := none, dimension := none,
     dimensionTimer := 0, invulnTime := 0 },
   { id := "pB", name := "B", x := 0, y := 0, size := 50, score := 0,
     alive := true, respawnTime := none, dimension := none,
     dimensionTimer := 0, invulnTime := 0 },
   { id := "pC", name := "C", x := 0, y := 0, size := 20, score := 0,
     alive := true, respawnTime := none, dimension := none,
     dimensionTimer := 0, invulnTime := 0 }]

/-- Two overlapping entities where the larger one has an active
invulnerability window (`invulnTime = 1000 > now = 0`). -/
def invulnAbsorberEnts : List Entity :=
  [{ id := "pI", name := "I", x := 0, y := 0, size := 100, score := 0,
     alive := true, respawnTime := none, dimension := none,
     dimensionTimer := 0, invulnTime := 1000 },
   { id := "pJ", name := "J", x := 0, y := 0, size := 50, score := 0,
     alive := true, respawnTime := none, dimension := none,
     dimensionTimer := 0, invulnTime := 0 }]

/-- Constant `CONFIG.worldHeight` (= 2000). -/
def worldHeight : ℚ := 2000

/-- Constant `CONFIG.tickRate` (= 20 server updates per second). -/
def tickRate : ℚ := 20

/-- Constant `CONFIG.DECAY.minSize` (= 15), the size floor. -/
def decayMinSize : ℚ := 15

/-- Constant `CONFIG.DECAY.baseRate` (= 0.02). -/
def decayBaseRate : ℚ := 0.02

/-- Constant `CONFIG.DECAY.sizeMultiplier` (= 2.5). -/
def decaySizeMultiplier : ℚ := 2.5

/-- Constant `tickMultiplier` (= 3) of the decay block of `updateGame`:
the server at 20 ticks/s multiplies the per-frame client decay by 3. -/
def tickMultiplier : ℚ := 3

/-- The mass-decay block of `updateGame` applied to one size value: when
the size is above the floor, it shrinks by
`baseRate * (1 + (size/minSize - 1) * sizeMultiplier) * tickMultiplier`
and is clamped back up to the floor if the subtraction undershot it. -/
def decayStep (s : ℚ) : ℚ :=
  if decayMinSize < s then
    if s - decayBaseRate * (1 + (s / decayMinSize - 1) * decaySizeMultiplier)
          * tickMultiplier < decayMinSize then
      decayMinSize
    else
      s - decayBaseRate * (1 + (s / decayMinSize - 1) * decaySizeMultiplier)
        * tickMultiplier
  else s

/-- The decay block over the room's player list: only alive players decay
(`if (p.alive && p.size > CONFIG.DECAY.minSize)`; the size guard is part
of `decayStep`). -/
def decayTick (players : List Entity) : List Entity :=
  players.map (fun p => if p.alive then { p with size := decayStep p.size } else p)

/-- The code table of `generateRoomId`:
`'ABCDEFGHIJKLMNOPQRSTUVWXYZ0123456789'`. -/
def roomIdChars : List Char :=
  "ABCDEFGHIJKLMNOPQRSTUVWXYZ0123456789".toList

/-- Function `generateRoomId()`: six characters drawn from `roomIdChars`;
`draws` carries the six values of `Math.floor(Math.random() * 36)`. -/
def generateRoomId (draws : List ℕ) : String :=
  String.mk ((List.range 6).map (fun i => roomIdChars.getD (draws.getD i 0) 'A'))

/-- Room lifecycle state: `waiting`, `playing` or `ended`. -/
inductive RoomState where
  | waiting
  | playing
  | ended
deriving DecidableEq, Inhabited

/-- A rift record of `createRifts` (fixed position in the primary world,
target dimension tag, trigger radius). -/
structure Rift where
  id : String
  x : ℚ
  y : ℚ
  type : Dim
  radius : ℚ
deriving DecidableEq, Inhabited

/-- Function `createRifts()`: the four hardcoded rifts of every room. -/
def createRifts : List Rift :=
  [{ id := "rift_0", x := worldWidth * 0.2, y := worldHeight * 0.2,
     type := Dim.FEAST, radius := 35 },
   { id := "rift_1", x := worldWidth * 0.8, y := worldHeight * 0.2,
     type := Dim.ANTI_GRAVITY, radius := 35 },
   { id := "rift_2", x := worldWidth * 0.2, y := worldHeight * 0.8,
     type := Dim.MIRROR_MAZE, radius := 35 },
   { id := "rift_3", x := worldWidth * 0.8, y := worldHeight * 0.8,
     type := Dim.SPEED, radius := 35 }]

/-- A room record (the object literal of `createRoom`).  The cosmetic
`color` fields of entities are omitted throughout; `gameInterval` is the
opaque timer handle returned by `setInterval`, modelled as a number. -/
structure Room where
  id : String
  hostId : String
  players : List Entity
  bots : List Entity
  orbs : List Orb
  rifts : List Rift
  state : RoomState
  startTime : Option ℚ
  gameInterval : Option ℕ
  lastOrbSync : ℚ
deriving DecidableEq, Inhabited

/-- Function `createPlayer(id, name)`: name truncated to 12 characters,
random position in the primary world (`rx`, `ry` are the two
`Math.random()` draws), size 20, no dimension, no invulnerability. -/
def createPlayer (id name : String) (rx ry : ℚ) : Entity :=
  { id := id
    name := name.take 12
    x := rx * worldWidth
    y := ry * worldHeight
    size := 20
    score := 0
    alive := true
    respawnTime := none
    dimension := none
    dimensionTimer := 0
    invulnTime := 0 }

/-- Key update of a JavaScript `Map` (`map.set(k, v)`): at most one entry
per key, so any previous entry under `k` is replaced. -/
def dirSet {α : Type} (k : String) (v : α) (m : List (String × α)) :
    List (String × α) :=
  (k, v) :: m.filter (fun kv => !(kv.1 == k))

/-- Key removal of a JavaScript `Map` (`map.delete(k)`). -/
def dirDel {α : Type} (k : String) (m : List (String × α)) :
    List (String × α) :=
  m.filter (fun kv => !(kv.1 == k))

/-- Function `createRoom(hostId, hostName)`: generates a 6-character code
(no collision check against the existing directory), builds the room with
the host as only player, and writes both `rooms.set(roomId, room)` and
`playerRooms.set(hostId, roomId)`.  Returns the room and the two updated
maps. -/
def createRoom (draws : List ℕ) (hostId hostName : String) (rx ry : ℚ)
    (rooms : List (String × Room)) (playerRooms : List (String × String)) :
    Room × List (String × Room) × List (String × String) :=
  let roomId := generateRoomId draws
  let hostPlayer := createPlayer hostId hostName rx ry
  let room : Room :=
    { id := roomId, hostId := hostId, players := [hostPlayer], bots := [],
      orbs := [], rifts := createRifts, state := .waiting,
      startTime := none, gameInterval := none, lastOrbSync := 0 }
  (room, dirSet roomId room rooms, dirSet hostId roomId playerRooms)

/-- Server-global state touched by `handlePlayerLeave`: the `rooms` and
`playerRooms` maps, plus a log of the timer handles passed to
`clearInterval` (to observe that a deleted room's tick timer was
stopped). -/
structure ServerSt where
  rooms : List (String × Room)
  playerRooms : List (String × String)
  clearedTimers : List ℕ
deriving DecidableEq, Inhabited

/-- The `playerLeft` event broadcast to the remaining members. -/
structure LeftEvent where
  playerId : String
  players : List Entity
  newHostId : String
deriving DecidableEq, Inhabited

/-- Function `handlePlayerLeave(socket)`: looks up the leaver's room,
removes the first matching player from its list, drops the
`playerRooms` entry; if the room became empty its interval (when set) is
cleared and the room is deleted from the directory; otherwise the host is
reassigned to `players[0]` when the leaver was host, and a `playerLeft`
event is emitted. -/
def handlePlayerLeave (sid : String) (st : ServerSt) :
    ServerSt × Option LeftEvent :=
  match st.playerRooms.lookup sid with
  | none => (st, none)
  | some roomId =>
    match st.rooms.lookup roomId with
    | none => (st, none)
    | some room =>
      let players1 := room.players.eraseP (fun p => p.id == sid)
      let pr1 := dirDel sid st.playerRooms
      if players1.isEmpty then
        let cleared :=
          match room.gameInterval with
          | some h => st.clearedTimers ++ [h]
          | none => st.clearedTimers
        ({ rooms := dirDel roomId st.rooms, playerRooms := pr1,
           clearedTimers := cleared }, none)
      else
        let newHostId :=
          if room.hostId == sid then (players1.headD default).id
          else room.hostId
        let room1 := { room with players := players1, hostId := newHostId }
        ({ rooms := dirSet roomId room1 st.rooms, playerRooms := pr1,
           clearedTimers := st.clearedTimers },
         some { playerId := sid, players := players1, newHostId := newHostId })

/-- The `dimensionEntered` event. -/
structure EnterEvent where
  playerId : String
  dimensionType : Dim
  x : ℚ
  y : ℚ
  duration : ℚ
deriving DecidableEq, Inhabited

/-- The rift proximity test of the `playerMove` handler:
`dist < rift.radius + player.size * 0.5 + 10` (relaxed check with a 10px
buffer, radius scaled by half the player's size). -/
def riftHit (p : Entity) (r : Rift) : Bool :=
  sqLtB (p.x - r.x) (p.y - r.y) (r.radius + p.size * 0.5 + 10)

/-- The entry mutation of the `playerMove` handler: dimension set to the
rift's tag, 15000 ms countdown, invulnerability until `now + 1500`, and
teleport to the center of the entered dimension's world. -/
def enterDimension (now : ℚ) (r : Rift) (p : Entity) : Entity :=
  { p with
    dimension := some r.type
    dimensionTimer := 15000
    invulnTime := now + 1500
    x := worldSizeOf (some r.type) / 2
    y := worldSizeOf (some r.type) / 2 }

/-- The rift-entry check at the end of the `playerMove` handler: only a
player in the primary world (`dimension === null`) is tested, the rifts
are scanned in order, and the loop `break`s after the first entry. -/
def riftEntry (now : ℚ) (rifts : List Rift) (p : Entity) :
    Entity × Option EnterEvent :=
  match p.dimension with
  | some _ => (p, none)
  | none =>
    match rifts.find? (riftHit p) with
    | none => (p, none)
    | some r =>
      (enterDimension now r p,
       some { playerId := p.id, dimensionType := r.type,
              x := worldSizeOf (some r.type) / 2,
              y := worldSizeOf (some r.type) / 2, duration := 15000 })

/-- The `dimensionExited` event. -/
structure ExitEvent where
  playerId : String
  dimensionType : Dim
  x : ℚ
  y : ℚ
deriving DecidableEq, Inhabited

/-- The dimension-exit check of `updateGame` for one player: dead players
and players in the primary world are skipped; otherwise the countdown is
decremented by `1000 / CONFIG.tickRate` and, when it reaches zero or
below, the player returns to the primary world at a random position
(`rx`, `ry` are the two `Math.random()` draws), the invulnerability is
cleared immediately, and a `dimensionExited` event is emitted. -/
def dimensionExitStep (rx ry : ℚ) (p : Entity) : Entity × Option ExitEvent :=
  if !p.alive then (p, none)
  else
    match p.dimension with
    | none => (p, none)
    | some d =>
      let t := p.dimensionTimer - 1000 / tickRate
      if t ≤ 0 then
        ({ p with
           dimension := none
           invulnTime := 0
           x := rx * worldWidth
           y := ry * worldHeight
           dimensionTimer := t },
         some { playerId := p.id, dimensionType := d,
                x := rx * worldWidth, y := ry * worldHeight })
      else ({ p with dimensionTimer := t }, none)

/-- The state-mutating part of the `playerMove` handler, after the
throttle, shape, room and alive guards have passed: the reported
coordinates are clamped to
`Math.max(size, Math.min(worldSize - size, value))` for the active
dimension's world, an immediate orb-collision check runs, and then the
rift-entry check.  `clampCoord` is the clamp
`Math.max(size, Math.min(worldSize - size, value))`. -/
def clampCoord (s ws v : ℚ) : ℚ :=
  max s (min (ws - s) v)

/-- The position clamp of the `playerMove` handler applied to the
reported coordinates, for the world of the player's current dimension. -/
def movedPlayer (p : Entity) (dx dy : ℚ) : Entity :=
  { p with
    x := clampCoord p.size (worldSizeOf p.dimension) dx
    y := clampCoord p.size (worldSizeOf p.dimension) dy }

def playerMoveUpdate (now : ℚ) (orbR : OrbRand) (rifts : List Rift)
    (orbs : List Orb) (p : Entity) (dx dy : ℚ) :
    Entity × List Orb × Option OrbEvent × Option EnterEvent :=
  ((riftEntry now rifts
      (checkPlayerOrbCollisions orbR (movedPlayer p dx dy) orbs).1).1,
   (checkPlayerOrbCollisions orbR (movedPlayer p dx dy) orbs).2.1,
   (checkPlayerOrbCollisions orbR (movedPlayer p dx dy) orbs).2.2,
   (riftEntry now rifts
      (checkPlayerOrbCollisions orbR (movedPlayer p dx dy) orbs).1).2)

/-- A player whose size exceeds half the primary world's extent. -/
def bigPlayer : Entity :=
  { id := "pBig", name := "Big", x := 1000, y := 1000, size := 1050,
    score := 0, alive := true, respawnTime := none, dimension := none,
    dimensionTimer := 0, invulnTime := 0 }

/-- A small player standing on the FEAST rift of the primary world. -/
def entrantPlayer : Entity :=
  { id := "pE", name := "E", x := 400, y := 400, size := 20, score := 0,
    alive := true, respawnTime := none, dimension := none,
    dimensionTimer := 0, invulnTime := 0 }

/-- An alive player inside the SPEED dimension whose countdown is about to
expire (30 ms left, one tick subtracts 50 ms), still invulnerable. -/
def exitingPlayer : Entity :=
  { id := "pX", name := "X", x := 500, y := 500, size := 30, score := 0,
    alive := true, respawnTime := none, dimension := some Dim.SPEED,
    dimensionTimer := 30, invulnTime := 9999 }

/-- A playing room with two members, hosted by connection "connA", whose
tick timer handle is 7. -/
def roomAB : Room :=
  { id := "ROOM01", hostId := "connA",
    players := [createPlayer "connA" "Alice" 0 0,
                createPlayer "connB" "Bob" 0 0],
    bots := [], orbs := [], rifts := createRifts, state := .playing,
    startTime := some 0, gameInterval := some 7, lastOrbSync := 0 }

/-- Server state holding `roomAB` and its two member connections. -/
def leaveSt : ServerSt :=
  { rooms := [("ROOM01", roomAB)],
    playerRooms := [("connA", "ROOM01"), ("connB", "ROOM01")],
    clearedTimers := [] }

/-- The same room with a single member, for the empty-room branch. -/
def roomSolo : Room :=
  { id := "ROOM02", hostId := "connC",
    players := [createPlayer "connC" "Carol" 0 0],
    bots := [], orbs := [], rifts := createRifts, state := .playing,
    startTime := some 0, gameInterval := some 9, lastOrbSync := 0 }

/-- Server state holding only `roomSolo` and its single member. -/
def soloSt : ServerSt :=
  { rooms := [("ROOM02", roomSolo)],
    playerRooms := [("connC", "ROOM02")],
    clearedTimers := [] }

theorem pickLast_perm (e : Entity) :
    ∀ (orbs os' : List Orb) (hit : Orb),
      pickLast e orbs = some (os', hit) → orbs.Perm (hit :: os') := by
  intro orbs
  induction orbs with
  | nil => intro os' hit h; simp [pickLast] at h
  | cons o os ih =>
    intro os' hit h
    simp only [pickLast] at h
    cases hrec : pickLast e os with
    | some p =>
      obtain ⟨os₂, hit₂⟩ := p
      rw [hrec] at h
      simp only [Option.some.injEq, Prod.mk.injEq] at h
      obtain ⟨h1, h2⟩ := h
      rw [← h1, ← h2]
      have hperm := ih os₂ hit₂ hrec
      exact (hperm.cons o).trans (List.Perm.swap hit₂ o os₂)
    | none =>
      rw [hrec] at h
      by_cases hc : orbHit e o
      · simp only [hc, if_pos, Option.some.injEq, Prod.mk.injEq] at h
        obtain ⟨h1, h2⟩ := h
        subst h1; subst h2
        exact List.Perm.refl _
      · simp [hc] at h

theorem countDim_collect (r : OrbRand) (e : Entity) (orbs : List Orb)
    (d : Option Dim) :
    countDim d (checkPlayerOrbCollisions r e orbs).2.1 = countDim d orbs := by
  unfold checkPlayerOrbCollisions
  cases hp : pickLast e orbs with
  | none => rfl
  | some p =>
    obtain ⟨os', hit⟩ := p
    have hperm := pickLast_perm e orbs os' hit hp
    simp only [countDim]
    rw [hperm.countP_eq]
    simp only [List.countP_cons, List.countP_append, List.countP_nil]
    have hdim : (createOrb r hit.dimension).dimension = hit.dimension := rfl
    rw [hdim]
    omega

/-- Claim C1: for every room in the playing state and every dimension tag
(including the primary world, tag `none`), a resolved orb pickup removes
exactly one orb and appends exactly one freshly created orb carrying the
same dimension tag, so the count of orbs per dimension is unchanged across
any sequence of collection events. -/
theorem orb_count_per_dimension_invariant (d : Option Dim) :
    (∀ (r : OrbRand) (e : Entity) (orbs : List Orb),
        countDim d (checkPlayerOrbCollisions r e orbs).2.1 = countDim d orbs)
    ∧ (∀ (r : OrbRand) (e : Entity) (orbs os' : List Orb) (hit : Orb),
        pickLast e orbs = some (os', hit) →
          (checkPlayerOrbCollisions r e orbs).2.1 =
              os' ++ [createOrb r hit.dimension]
          ∧ orbs.Perm (hit :: os')
          ∧ (createOrb r hit.dimension).dimension = hit.dimension)
    ∧ (∀ (steps : List (OrbRand × Entity)) (orbs : List Orb),
        countDim d (collectFold steps orbs) = countDim d orbs) := by
  refine ⟨fun r e orbs => countDim_collect r e orbs d, ?_, ?_⟩
  · intro r e orbs os' hit hp
    refine ⟨?_, pickLast_perm e orbs os' hit hp, rfl⟩
    unfold checkPlayerOrbCollisions
    rw [hp]
  · intro steps
    induction steps with
    | nil => intro orbs; rfl
    | cons s rest ih =>
      intro orbs
      show countDim d (collectFold rest (collectStep orbs s)) = countDim d orbs
      rw [ih (collectStep orbs s)]
      exact countDim_collect s.1 s.2 orbs d

/-- Witness for C1: a concrete pickup (entity on top of a FEAST orb)
resolves and preserves the per-dimension counts. -/
theorem orb_count_per_dimension_invariant_witness :
    pickLast
        { id := "p1", name := "A", x := 100, y := 100, size := 20, score := 0,
          alive := true, respawnTime := none, dimension := some Dim.FEAST,
          dimensionTimer := 0, invulnTime := 0 }
        [{ id := "o1", x := 100, y := 100, size := 10,
           dimension := some Dim.FEAST }] =
      some ([], { id := "o1", x := 100, y := 100, size := 10,
                  dimension := some Dim.FEAST }) ∧
    (checkPlayerOrbCollisions
        { idStr := "o2", rx := 0, ry := 0, rs := 0 }
        { id := "p1", name := "A", x := 100, y := 100, size := 20, score := 0,
          alive := true, respawnTime := none, dimension := some Dim.FEAST,
          dimensionTimer := 0, invulnTime := 0 }
        [{ id := "o1", x := 100, y := 100, size := 10,
           dimension := some Dim.FEAST }]).2.1 =
      [] ++ [createOrb { idStr := "o2", rx := 0, ry := 0, rs := 0 }
              (some Dim.FEAST)] := by
  constructor
  · with_unfolding_all decide
  · exact ((orb_count_per_dimension_invariant (some Dim.FEAST)).2.1
      { idStr := "o2", rx := 0, ry := 0, rs := 0 }
      { id := "p1", name := "A", x := 100, y := 100, size := 20, score := 0,
        alive := true, respawnTime := none, dimension := some Dim.FEAST,
        dimensionTimer := 0, invulnTime := 0 }
      [{ id := "o1", x := 100, y := 100, size := 10,
         dimension := some Dim.FEAST }]
      []
      { id := "o1", x := 100, y := 100, size := 10,
        dimension := some Dim.FEAST }
      (by with_unfolding_all decide)).1

theorem sqLtB_sub_comm (x x' y y' t : ℚ) :
    sqLtB (x' - x) (y' - y) t = sqLtB (x - x') (y - y') t := by
  simp only [sqLtB]
  have hx : (x' - x) * (x' - x) = (x - x') * (x - x') := by ring
  have hy : (y' - y) * (y' - y) = (y - y') * (y - y') := by ring
  rw [hx, hy]

theorem pairOutcome_first_ratio (now : ℚ) (a b : Entity)
    (h : pairOutcome now a b = .firstAbsorbsSecond) : b.size * 1.1 < a.size := by
  unfold pairOutcome at h
  split_ifs at h
  assumption

theorem pairOutcome_second_ratio (now : ℚ) (a b : Entity)
    (h : pairOutcome now a b = .secondAbsorbsFirst) : a.size * 1.1 < b.size := by
  unfold pairOutcome at h
  split_ifs at h
  assumption

/-- Claim C2: absorption fires for a pair only when one size exceeds the
other by more than the ratio `1.1`; exact ties never absorb (for the
nonnegative sizes the game maintains); and the two directions are
complementary under swapping the pair, so mutual absorption is impossible
(the outcome type has a single value per pair). -/
theorem absorption_ratio_threshold (now : ℚ) (a b : Entity)
    (ha : 0 ≤ a.size) (hb : 0 ≤ b.size) :
    (pairOutcome now a b = .firstAbsorbsSecond → b.size * 1.1 < a.size)
    ∧ (pairOutcome now a b = .secondAbsorbsFirst → a.size * 1.1 < b.size)
    ∧ (a.size = b.size → pairOutcome now a b = .noAbsorb)
    ∧ pairOutcome now b a = swapOutcome (pairOutcome now a b) := by
  refine ⟨pairOutcome_first_ratio now a b, pairOutcome_second_ratio now a b,
    ?_, ?_⟩
  · intro hsz
    unfold pairOutcome
    split_ifs with h1 h2 h3 h4 h5 h6 <;> try rfl
    · exact absurd h3 (by rw [hsz]; nlinarith)
    · exact absurd h5 (by rw [hsz]; nlinarith)
  · have hdim : (b.dimension ≠ a.dimension) ↔ (a.dimension ≠ b.dimension) :=
      ne_comm
    have hdist : sqLtB (b.x - a.x) (b.y - a.y) (max b.size a.size * 0.7) =
        sqLtB (a.x - b.x) (a.y - b.y) (max a.size b.size * 0.7) := by
      rw [max_comm b.size a.size, sqLtB_sub_comm]
    unfold pairOutcome
    rw [hdist]
    by_cases h1 : a.dimension = b.dimension
    · have h1' : ¬ b.dimension ≠ a.dimension := by simp [h1]
      have h1'' : ¬ a.dimension ≠ b.dimension := by simp [h1]
      simp only [h1', h1'', if_false]
      by_cases h2 : sqLtB (a.x - b.x) (a.y - b.y) (max a.size b.size * 0.7)
      · simp only [h2, if_true]
        by_cases h3 : a.size > b.size * 1.1
        · have h4 : ¬ b.size > a.size * 1.1 := by nlinarith
          simp only [h3, h4, if_true, if_false]
          by_cases h5 : invulnActive now b <;> simp [h5, swapOutcome]
        · simp only [h3, if_false]
          by_cases h4 : b.size > a.size * 1.1
          · simp only [h4, if_true]
            by_cases h5 : invulnActive now a <;> simp [h5, swapOutcome]
          · simp [h3, h4, swapOutcome]
      · simp [h2, swapOutcome]
    · have h1' : b.dimension ≠ a.dimension := fun hh => h1 hh.symm
      have h1'' : a.dimension ≠ b.dimension := h1
      simp [h1', h1'', swapOutcome]

/-- Witness for C2 at a concrete pair: sizes 100 and 50, overlapping, in
the primary world — the first absorbs the second and the swapped pair
yields the complementary outcome. -/
theorem absorption_ratio_threshold_witness :
    (0 ≤ (chainEnts.getD 0 default).size) ∧ (0 ≤ (chainEnts.getD 1 default).size) ∧
    pairOutcome 0 (chainEnts.getD 0 default) (chainEnts.getD 1 default) =
      .firstAbsorbsSecond ∧
    (50 : ℚ) * 1.1 < 100 := by
  refine ⟨by with_unfolding_all decide, by with_unfolding_all decide,
    by with_unfolding_all decide, ?_⟩
  have h := (absorption_ratio_threshold 0 (chainEnts.getD 0 default)
      (chainEnts.getD 1 default)
      (by with_unfolding_all decide) (by with_unfolding_all decide)).1
      (by with_unfolding_all decide)
  have hb : (chainEnts.getD 1 default).size = 50 := by with_unfolding_all decide
  have ha : (chainEnts.getD 0 default).size = 100 := by with_unfolding_all decide
  rw [hb, ha] at h
  exact h

theorem events_pairs_sublist (now : ℚ) :
    ∀ (ps : List (ℕ × ℕ)) (st : PassState),
      ((ps.foldl (absorbStep now) st).events.map AbsEvent.pair).Sublist
        ((st.events.map AbsEvent.pair) ++ ps) := by
  intro ps
  induction ps with
  | nil =>
    intro st
    simp only [List.foldl_nil]
    exact List.sublist_append_left _ _
  | cons p ps ih =>
    intro st
    have hstep : ((absorbStep now st p).events.map AbsEvent.pair).Sublist
        ((st.events.map AbsEvent.pair) ++ [p]) := by
      unfold absorbStep
      rcases h : pairOutcome now (st.ents.getD p.1 default)
          (st.ents.getD p.2 default) with _ | _ | _ <;>
        simp only [h]
      · simp
      · simp
      · exact List.sublist_append_left _ _
    have h1 := ih (absorbStep now st p)
    have h2 : (((absorbStep now st p).events.map AbsEvent.pair) ++ ps).Sublist
        (((st.events.map AbsEvent.pair) ++ [p]) ++ ps) :=
      hstep.append_right ps
    have h3 : ((st.events.map AbsEvent.pair) ++ [p]) ++ ps =
        (st.events.map AbsEvent.pair) ++ (p :: ps) := by
      simp
    rw [List.foldl_cons]
    rw [h3] at h2
    exact h1.trans h2

theorem allPairs_nodup (n : ℕ) : (allPairs n).Nodup :=
  ((List.nodup_range n).product (List.nodup_range n)).filter _

/-- Claim C3 (amended): within one tick the double loop examines each
unordered pair of snapshot indices exactly once, so at most one absorption
event fires per pair; but the alive filter is taken only when the snapshot
is built, so an entity that dies during the pass is *not* excluded from
later pair checks of the same tick. -/
theorem absorption_events_unique_per_pair (now : ℚ) (ents : List Entity) :
    ((absorptionPass now ents).events.map AbsEvent.pair).Nodup := by
  have h := events_pairs_sublist now (allPairs ents.length) ⟨ents, []⟩
  simp only [List.map_nil, List.nil_append] at h
  exact h.nodup (allPairs_nodup _)

/-- Counterexample to claim C3 as stated: with three stacked entities of
sizes 100 > 50 > 20 in the primary world, the pass resolves the pairs
(0,1), (0,2) and (1,2) in order.  After pair (0,1) kills entity 1 and pair
(0,2) kills entity 2, the pair (1,2) still fires: the dead entity 1
absorbs the already-dead entity 2, so entity 2 is absorbed twice in the
tick and entity 1 acts as absorber after becoming dead. -/
theorem dead_entity_excluded_counterexample :
    (absorptionPass 0 chainEnts).events =
      [⟨(0, 1), true⟩, ⟨(0, 2), true⟩, ⟨(1, 2), true⟩] ∧
    ((absorptionPass 0 chainEnts).events.filter
        (fun ev => absorbedOf ev = 2)).length = 2 ∧
    ((((allPairs chainEnts.length).take 2).foldl (absorbStep 0)
        ⟨chainEnts, []⟩).ents.getD 1 default).alive = false ∧
    absorberOf ⟨(1, 2), true⟩ = 1 := by
  refine ⟨?_, ?_, ?_, ?_⟩ <;> with_unfolding_all decide

theorem map_set_of_getD {α β : Type} (f : α → β) :
    ∀ (l : List α) (i : ℕ) (v d : α), f v = f (l.getD i d) →
      (l.set i v).map f = l.map f := by
  intro l
  induction l with
  | nil => intro i v d h; rfl
  | cons a l ih =>
    intro i v d h
    cases i with
    | zero =>
      rw [List.getD_cons_zero] at h
      simp [List.set, h]
    | succ i =>
      rw [List.getD_cons_succ] at h
      simp only [List.set, List.map_cons]
      rw [ih i v d h]

theorem getD_invuln_of_map_eq :
    ∀ (l l₀ : List Entity),
      l.map (fun e => e.invulnTime) = l₀.map (fun e => e.invulnTime) →
      ∀ (i : ℕ),
        (l.getD i default).invulnTime = (l₀.getD i default).invulnTime := by
  intro l
  induction l with
  | nil =>
    intro l₀ h i
    cases l₀ with
    | nil => rfl
    | cons b l₀ => simp at h
  | cons a l ih =>
    intro l₀ h i
    cases l₀ with
    | nil => simp at h
    | cons b l₀ =>
      simp only [List.map_cons, List.cons.injEq] at h
      cases i with
      | zero => simpa using h.1
      | succ i =>
        simp only [List.getD_cons_succ]
        exact ih l₀ h.2 i

theorem invulns_applyAbsorb (now : ℚ) (ents : List Entity) (ai bi : ℕ) :
    (applyAbsorb now ents ai bi).map (fun e => e.invulnTime) =
      ents.map (fun e => e.invulnTime) := by
  unfold applyAbsorb
  have hinner : (ents.set bi (absorbedUpd now (ents.getD bi default))).map
      (fun e => e.invulnTime) = ents.map (fun e => e.invulnTime) :=
    map_set_of_getD (fun (e : Entity) => e.invulnTime) ents bi
      (absorbedUpd now (ents.getD bi default)) default rfl
  have houter :
      (absorberUpd (ents.getD ai default) (ents.getD bi default)).invulnTime =
        ((ents.set bi (absorbedUpd now (ents.getD bi default))).getD ai
            default).invulnTime := by
    rw [getD_invuln_of_map_eq _ _ hinner ai]
    rfl
  exact (map_set_of_getD (fun (e : Entity) => e.invulnTime) _ ai _ default
    houter).trans hinner

theorem invulnActive_congr (now : ℚ) (a b : Entity)
    (h : a.invulnTime = b.invulnTime) :
    invulnActive now a = invulnActive now b := by
  unfold invulnActive
  rw [h]

theorem pairOutcome_first_not_invuln (now : ℚ) (a b : Entity)
    (h : pairOutcome now a b = .firstAbsorbsSecond) :
    invulnActive now b = false := by
  unfold pairOutcome at h
  split_ifs at h
  simp_all

theorem pairOutcome_second_not_invuln (now : ℚ) (a b : Entity)
    (h : pairOutcome now a b = .secondAbsorbsFirst) :
    invulnActive now a = false := by
  unfold pairOutcome at h
  split_ifs at h
  simp_all

theorem pass_invuln_aux (now : ℚ) (ents0 : List Entity) :
    ∀ (ps : List (ℕ × ℕ)) (st : PassState),
      st.ents.map (fun e => e.invulnTime) =
          ents0.map (fun e => e.invulnTime) →
      (∀ ev ∈ st.events,
          invulnActive now (ents0.getD (absorbedOf ev) default) = false) →
      (ps.foldl (absorbStep now) st).ents.map (fun e => e.invulnTime) =
          ents0.map (fun e => e.invulnTime) ∧
      ∀ ev ∈ (ps.foldl (absorbStep now) st).events,
          invulnActive now (ents0.getD (absorbedOf ev) default) = false := by
  intro ps
  induction ps with
  | nil => intro st h1 h2; exact ⟨h1, h2⟩
  | cons p ps ih =>
    intro st h1 h2
    rw [List.foldl_cons]
    refine ih (absorbStep now st p) ?_ ?_
    · unfold absorbStep
      rcases h : pairOutcome now (st.ents.getD p.1 default)
          (st.ents.getD p.2 default) with _ | _ | _ <;> simp only [h]
      · rw [invulns_applyAbsorb, h1]
      · rw [invulns_applyAbsorb, h1]
      · exact h1
    · unfold absorbStep
      rcases h : pairOutcome now (st.ents.getD p.1 default)
          (st.ents.getD p.2 default) with _ | _ | _ <;> simp only [h]
      · intro ev hev
        simp only [List.mem_append, List.mem_singleton] at hev
        rcases hev with hev | hev
        · exact h2 ev hev
        · subst hev
          have hb := pairOutcome_first_not_invuln now _ _ h
          rw [invulnActive_congr now _ _
            (getD_invuln_of_map_eq st.ents ents0 h1 p.2)] at hb
          simpa [absorbedOf] using hb
      · intro ev hev
        simp only [List.mem_append, List.mem_singleton] at hev
        rcases hev with hev | hev
        · exact h2 ev hev
        · subst hev
          have ha := pairOutcome_second_not_invuln now _ _ h
          rw [invulnActive_congr now _ _
            (getD_invuln_of_map_eq st.ents ents0 h1 p.1)] at ha
          simpa [absorbedOf] using ha
      · exact h2

/-- Claim C4: for every absorption resolved during a tick, the absorbed
entity's invulnerability window had already expired at the tick's time
(`invulnTime` absent — value 0 — or not greater than `now`); and an
entity with an active window may itself be the absorber in the same tick,
witnessed by `invulnAbsorberEnts` where the invulnerable entity 0 absorbs
entity 1. -/
theorem absorbed_party_not_invulnerable (now : ℚ) (ents : List Entity) :
    (∀ ev ∈ (absorptionPass now ents).events,
        (ents.getD (absorbedOf ev) default).invulnTime = 0 ∨
          (ents.getD (absorbedOf ev) default).invulnTime ≤ now)
    ∧ (absorptionPass 0 invulnAbsorberEnts).events = [⟨(0, 1), true⟩]
    ∧ invulnActive 0 (invulnAbsorberEnts.getD 0 default) = true := by
  refine ⟨?_, by with_unfolding_all decide, by with_unfolding_all decide⟩
  intro ev hev
  have h := (pass_invuln_aux now ents (allPairs ents.length) ⟨ents, []⟩ rfl
    (by intro ev hev; simp at hev)).2 ev hev
  unfold invulnActive at h
  simp only [Bool.and_eq_false_iff, decide_eq_false_iff_not, not_not,
    not_lt] at h
  rcases h with h | h
  · exact Or.inl h
  · exact Or.inr h

/-- Witness for C4: applying the theorem to the concrete two-entity
snapshot `invulnAbsorberEnts` and its one resolved absorption. -/
theorem absorbed_party_not_invulnerable_witness :
    (invulnAbsorberEnts.getD (absorbedOf ⟨(0, 1), true⟩) default).invulnTime
        = 0 ∨
      (invulnAbsorberEnts.getD (absorbedOf ⟨(0, 1), true⟩)
          default).invulnTime ≤ 0 :=
  (absorbed_party_not_invulnerable 0 invulnAbsorberEnts).1
    ⟨(0, 1), true⟩ (by with_unfolding_all decide)

theorem decayStep_ge (s : ℚ) (h : decayMinSize ≤ s) :
    decayMinSize ≤ decayStep s := by
  unfold decayStep
  split_ifs with h1 h2
  · exact le_refl _
  · linarith [not_lt.mp h2]
  · exact h

/-- Claim C5: the size of every alive player is at least the configured
floor (`CONFIG.DECAY.minSize = 15`) after the decay step of any tick, and
stays there across any sequence of decay ticks; absorption grows the
absorber and leaves the absorbed entity's size unchanged, so neither
operation pushes a size below the floor. -/
theorem size_floor_invariant :
    (∀ (s : ℚ), decayMinSize ≤ s → ∀ (n : ℕ), decayMinSize ≤ decayStep^[n] s)
    ∧ (∀ (players : List Entity),
        (∀ p ∈ players, decayMinSize ≤ p.size) →
        ∀ q ∈ decayTick players, decayMinSize ≤ q.size)
    ∧ (∀ (a b : Entity), decayMinSize ≤ a.size → 0 ≤ b.size →
        decayMinSize ≤ (absorberUpd a b).size)
    ∧ (∀ (now : ℚ) (b : Entity), (absorbedUpd now b).size = b.size) := by
  refine ⟨?_, ?_, ?_, fun now b => rfl⟩
  · intro s h n
    induction n with
    | zero => simpa using h
    | succ n ih =>
      rw [Function.iterate_succ_apply']
      exact decayStep_ge _ ih
  · intro players hall q hq
    unfold decayTick at hq
    simp only [List.mem_map] at hq
    obtain ⟨p, hp, hpq⟩ := hq
    subst hpq
    by_cases ha : p.alive
    · simp only [ha, if_true]
      exact decayStep_ge _ (hall p hp)
    · simp only [ha, if_false]
      exact hall p hp
  · intro a b ha hb
    unfold absorberUpd
    simp only
    nlinarith

/-- Witness for C5: a size of 20 stays at or above the floor across three
decay ticks. -/
theorem size_floor_invariant_witness :
    decayMinSize ≤ decayStep^[3] 20 :=
  size_floor_invariant.1 20 (by with_unfolding_all decide) 3

theorem lookup_dirSet {α : Type} (k : String) (v : α)
    (m : List (String × α)) : (dirSet k v m).lookup k = some v := by
  simp [dirSet, List.lookup]

theorem lookup_dirDel {α : Type} (k : String) (m : List (String × α)) :
    (dirDel k m).lookup k = none := by
  induction m with
  | nil => rfl
  | cons kv m ih =>
    unfold dirDel at ih ⊢
    rcases eq_or_ne kv.1 k with h | h
    · simp [h, ih]
    · simp only [List.filter]
      have hb : (kv.1 == k) = false := by simp [h]
      simp only [hb, Bool.not_false, List.lookup]
      have hb2 : (k == kv.1) = false := by simp [Ne.symm h]
      rw [hb2]
      exact ih

/-- Claim C6 (amended): `createRoom` registers the new room in the
directory under the freshly generated 6-character code unconditionally —
there is no collision check against existing rooms, so when the generated
code already names a room, the directory entry is replaced by the new
room instead of the generation being retried. -/
theorem createRoom_registers_generated_code (draws : List ℕ)
    (hostId hostName : String) (rx ry : ℚ)
    (rooms : List (String × Room)) (prs : List (String × String)) :
    ((createRoom draws hostId hostName rx ry rooms prs).2.1).lookup
        (generateRoomId draws) =
      some (createRoom draws hostId hostName rx ry rooms prs).1 := by
  unfold createRoom
  exact lookup_dirSet _ _ _

set_option maxRecDepth 8000 in
/-- Counterexample to claim C6 as stated: with random draws all zero the
generated code is "AAAAAA" twice in a row; the second `createRoom` call
replaces the first room in the directory — the old room is no longer
reachable under its code and has disappeared from the directory, so a
collision is not retried but overwrites. -/
theorem createRoom_collision_counterexample :
    generateRoomId [0, 0, 0, 0, 0, 0] = "AAAAAA" ∧
    ((createRoom [0, 0, 0, 0, 0, 0] "hostA" "Alice" 0 0 [] []).2.1).lookup
        "AAAAAA" =
      some (createRoom [0, 0, 0, 0, 0, 0] "hostA" "Alice" 0 0 [] []).1 ∧
    ((createRoom [0, 0, 0, 0, 0, 0] "hostB" "Bob" 0 0
        (createRoom [0, 0, 0, 0, 0, 0] "hostA" "Alice" 0 0 [] []).2.1
        (createRoom [0, 0, 0, 0, 0, 0] "hostA" "Alice" 0 0 [] []).2.2).2.1).lookup
        "AAAAAA" ≠
      some (createRoom [0, 0, 0, 0, 0, 0] "hostA" "Alice" 0 0 [] []).1 ∧
    (createRoom [0, 0, 0, 0, 0, 0] "hostA" "Alice" 0 0 [] []).1 ∉
      ((createRoom [0, 0, 0, 0, 0, 0] "hostB" "Bob" 0 0
          (createRoom [0, 0, 0, 0, 0, 0] "hostA" "Alice" 0 0 [] []).2.1
          (createRoom [0, 0, 0, 0, 0, 0] "hostA" "Alice" 0 0 [] []).2.2).2.1).map
        Prod.snd := by
  refine ⟨?_, ?_, ?_, ?_⟩ <;> with_unfolding_all decide

/-- Claim C7: rift entry fires only from the primary world, applies the
full entry effect (dimension tag, teleport to the entered world's center,
15000 ms countdown, invulnerability until `now + 1500`) exactly once for
the first triggering rift, and re-running the check on the resulting
player has no effect and emits no event. -/
theorem dimension_entry_idempotent (now : ℚ) (rifts : List Rift)
    (p : Entity) :
    (p.dimension ≠ none → riftEntry now rifts p = (p, none))
    ∧ (∀ r, p.dimension = none → rifts.find? (riftHit p) = some r →
        riftEntry now rifts p =
          (enterDimension now r p,
           some { playerId := p.id, dimensionType := r.type,
                  x := worldSizeOf (some r.type) / 2,
                  y := worldSizeOf (some r.type) / 2, duration := 15000 })
        ∧ (enterDimension now r p).dimension = some r.type
        ∧ (enterDimension now r p).x = worldSizeOf (some r.type) / 2
        ∧ (enterDimension now r p).y = worldSizeOf (some r.type) / 2
        ∧ (enterDimension now r p).dimensionTimer = 15000
        ∧ (enterDimension now r p).invulnTime = now + 1500)
    ∧ riftEntry now rifts ((riftEntry now rifts p).1) =
        ((riftEntry now rifts p).1, none) := by
  rcases hd : p.dimension with _ | d
  · rcases hf : rifts.find? (riftHit p) with _ | r
    · refine ⟨fun hne => absurd rfl hne, ?_, ?_⟩
      · intro r _ hf2
        exact absurd hf2 (by simp)
      · simp [riftEntry, hd, hf]
    · refine ⟨fun hne => absurd rfl hne, ?_, ?_⟩
      · intro r' _ hf2
        have hr : r' = r := by
          simpa using hf2.symm
        subst hr
        refine ⟨?_, rfl, rfl, rfl, rfl, rfl⟩
        simp [riftEntry, hd, hf]
      · have h1 : riftEntry now rifts p =
            (enterDimension now r p,
             some { playerId := p.id, dimensionType := r.type,
                    x := worldSizeOf (some r.type) / 2,
                    y := worldSizeOf (some r.type) / 2,
                    duration := 15000 }) := by
          simp [riftEntry, hd, hf]
        rw [h1]
        simp [riftEntry, enterDimension]
  · have h1 : riftEntry now rifts p = (p, none) := by
      simp [riftEntry, hd]
    refine ⟨fun _ => h1, ?_, ?_⟩
    · intro r hnone
      exact absurd hnone (by simp)
    · rw [h1]
      exact h1

/-- Witness for C7: the player standing on the FEAST rift enters exactly
as the theorem describes. -/
theorem dimension_entry_idempotent_witness :
    entrantPlayer.dimension = none ∧
    createRifts.find? (riftHit entrantPlayer) =
      some (createRifts.getD 0 default) ∧
    riftEntry 0 createRifts entrantPlayer =
      (enterDimension 0 (createRifts.getD 0 default) entrantPlayer,
       some { playerId := entrantPlayer.id,
              dimensionType := (createRifts.getD 0 default).type,
              x := worldSizeOf (some (createRifts.getD 0 default).type) / 2,
              y := worldSizeOf (some (createRifts.getD 0 default).type) / 2,
              duration := 15000 }) := by
  refine ⟨by with_unfolding_all decide, by with_unfolding_all decide, ?_⟩
  exact ((dimension_entry_idempotent 0 createRifts entrantPlayer).2.1
    (createRifts.getD 0 default) (by with_unfolding_all decide)
    (by with_unfolding_all decide)).1

/-- Claim C8: when the per-tick countdown decrement drives the dimension
timer of an alive in-dimension player to zero or below, the player's
dimension is reset to the primary world, the invulnerability timestamp is
cleared to 0 immediately, the position becomes a random point of the
primary world (within its bounds for draws in `[0, 1)`), and a
`dimensionExited` event carrying the exited tag and the new position is
emitted. -/
theorem dimension_timer_forces_exit (rx ry : ℚ) (p : Entity) (d : Dim)
    (halive : p.alive = true) (hdim : p.dimension = some d)
    (ht : p.dimensionTimer - 1000 / tickRate ≤ 0)
    (hrx0 : 0 ≤ rx) (hrx1 : rx < 1) (hry0 : 0 ≤ ry) (hry1 : ry < 1) :
    dimensionExitStep rx ry p =
      ({ p with
         dimension := none
         invulnTime := 0
         x := rx * worldWidth
         y := ry * worldHeight
         dimensionTimer := p.dimensionTimer - 1000 / tickRate },
       some { playerId := p.id, dimensionType := d,
              x := rx * worldWidth, y := ry * worldHeight })
    ∧ 0 ≤ rx * worldWidth ∧ rx * worldWidth < worldWidth
    ∧ 0 ≤ ry * worldHeight ∧ ry * worldHeight < worldHeight := by
  have hww : worldWidth = 2000 := rfl
  have hwh : worldHeight = 2000 := rfl
  refine ⟨?_, ?_, ?_, ?_, ?_⟩
  · unfold dimensionExitStep
    rw [halive, hdim]
    simp only [Bool.not_true, Bool.false_eq_true, if_false]
    rw [if_pos ht]
  · rw [hww]; nlinarith
  · rw [hww]; nlinarith
  · rw [hwh]; nlinarith
  · rw [hwh]; nlinarith

/-- Witness for C8: the concrete `exitingPlayer` (30 ms left in SPEED) is
forced out on the next tick. -/
theorem dimension_timer_forces_exit_witness :
    dimensionExitStep (1/2) (1/4) exitingPlayer =
      ({ exitingPlayer with
         dimension := none
         invulnTime := 0
         x := (1/2) * worldWidth
         y := (1/4) * worldHeight
         dimensionTimer := exitingPlayer.dimensionTimer - 1000 / tickRate },
       some { playerId := exitingPlayer.id, dimensionType := Dim.SPEED,
              x := (1/2) * worldWidth, y := (1/4) * worldHeight }) :=
  (dimension_timer_forces_exit (1/2) (1/4) exitingPlayer Dim.SPEED
    (by with_unfolding_all decide) (by with_unfolding_all decide)
    (by with_unfolding_all decide) (by with_unfolding_all decide)
    (by with_unfolding_all decide) (by with_unfolding_all decide)
    (by with_unfolding_all decide)).1

/-- Claim C9: when a connection leaves, its player is removed from its
room's list; if the list became empty the room's tick timer handle (when
set) is among the cleared intervals and the room is gone from the
directory; if players remain the room stays in the directory with the
departing player removed and, when the leaver was host, the host identity
reassigned to the first remaining player, and a `playerLeft` event
carrying the new host is emitted. -/
theorem player_leave_room_lifecycle (sid : String) (st : ServerSt)
    (rid : String) (room : Room)
    (h1 : st.playerRooms.lookup sid = some rid)
    (h2 : st.rooms.lookup rid = some room) :
    ((room.players.eraseP (fun p => p.id == sid)) = [] →
      (handlePlayerLeave sid st).1.rooms.lookup rid = none ∧
      (handlePlayerLeave sid st).2 = none ∧
      ∀ h, room.gameInterval = some h →
        h ∈ (handlePlayerLeave sid st).1.clearedTimers)
    ∧ ((room.players.eraseP (fun p => p.id == sid)) ≠ [] →
      (handlePlayerLeave sid st).1.rooms.lookup rid =
        some { room with
               players := room.players.eraseP (fun p => p.id == sid)
               hostId := if room.hostId == sid
                 then ((room.players.eraseP
                     (fun p => p.id == sid)).headD default).id
                 else room.hostId } ∧
      (handlePlayerLeave sid st).2 =
        some { playerId := sid,
               players := room.players.eraseP (fun p => p.id == sid),
               newHostId := if room.hostId == sid
                 then ((room.players.eraseP
                     (fun p => p.id == sid)).headD default).id
                 else room.hostId }) := by
  constructor
  · intro hemp
    have hempb : (room.players.eraseP (fun p => p.id == sid)).isEmpty = true := by
      rw [hemp]; rfl
    simp only [handlePlayerLeave, h1, h2, hempb, if_true]
    refine ⟨lookup_dirDel rid st.rooms, trivial, ?_⟩
    intro h hh
    rw [hh]
    simp
  · intro hne
    have hneb : (room.players.eraseP (fun p => p.id == sid)).isEmpty = false := by
      rcases hcase : room.players.eraseP (fun p => p.id == sid) with _ | ⟨a, l⟩
      · exact absurd hcase hne
      · rw [hcase]; rfl
    simp only [handlePlayerLeave, h1, h2, hneb, Bool.false_eq_true, if_false]
    exact ⟨lookup_dirSet rid _ st.rooms, trivial⟩

set_option maxRecDepth 8000 in
/-- Witness for C9: connection "connA" (the host) leaves the two-member
room — host is reassigned to "connB" and the room survives; connection
"connC" leaves the one-member room — the room is deleted and its timer
handle 9 is cleared. -/
theorem player_leave_room_lifecycle_witness :
    ((handlePlayerLeave "connA" leaveSt).1.rooms.lookup "ROOM01" =
        some { roomAB with
               players := roomAB.players.eraseP (fun p => p.id == "connA")
               hostId := if roomAB.hostId == "connA"
                 then ((roomAB.players.eraseP
                     (fun p => p.id == "connA")).headD default).id
                 else roomAB.hostId } ∧
      (handlePlayerLeave "connA" leaveSt).2 =
        some { playerId := "connA",
               players := roomAB.players.eraseP (fun p => p.id == "connA"),
               newHostId := if roomAB.hostId == "connA"
                 then ((roomAB.players.eraseP
                     (fun p => p.id == "connA")).headD default).id
                 else roomAB.hostId })
    ∧ ((handlePlayerLeave "connC" soloSt).1.rooms.lookup "ROOM02" = none ∧
       (handlePlayerLeave "connC" soloSt).2 = none ∧
       ∀ h, roomSolo.gameInterval = some h →
         h ∈ (handlePlayerLeave "connC" soloSt).1.clearedTimers) := by
  constructor
  · exact (player_leave_room_lifecycle "connA" leaveSt "ROOM01" roomAB
      (by with_unfolding_all decide) (by with_unfolding_all decide)).2
      (by with_unfolding_all decide)
  · exact (player_leave_room_lifecycle "connC" soloSt "ROOM02" roomSolo
      (by with_unfolding_all decide) (by with_unfolding_all decide)).1
      (by with_unfolding_all decide)

theorem collect_preserves (r : OrbRand) (e : Entity) (orbs : List Orb) :
    (checkPlayerOrbCollisions r e orbs).1.x = e.x ∧
    (checkPlayerOrbCollisions r e orbs).1.y = e.y ∧
    (checkPlayerOrbCollisions r e orbs).1.dimension = e.dimension := by
  unfold checkPlayerOrbCollisions
  rcases hp : pickLast e orbs with _ | ⟨os', hit⟩ <;> simp

theorem worldSizeOf_ge (d : Option Dim) : (800 : ℚ) ≤ worldSizeOf d := by
  rcases d with _ | t
  · norm_num [worldSizeOf, worldWidth]
  · cases t <;> norm_num [worldSizeOf]

/-- Claim C10 (amended): writing `s` for the player's size when the move
is applied and `ws` for the world size of the player's pre-move dimension,
the handler sets each coordinate to
`Math.max(s, Math.min(ws - s, value))`; provided `2 * s ≤ 800` (half the
smallest world) the resulting position lies within `[s, ws - s]` whenever
the player's dimension is unchanged by the move, and when the move
triggers a rift entry the position is instead the entered world's center,
which lies within that world's bounds. -/
theorem playerMove_clamps_within_world (now : ℚ) (orbR : OrbRand)
    (rifts : List Rift) (orbs : List Orb) (p : Entity) (dx dy : ℚ)
    (hs : 2 * p.size ≤ 800) :
    ((playerMoveUpdate now orbR rifts orbs p dx dy).1.dimension =
        p.dimension →
      p.size ≤ (playerMoveUpdate now orbR rifts orbs p dx dy).1.x ∧
      (playerMoveUpdate now orbR rifts orbs p dx dy).1.x ≤
        worldSizeOf p.dimension - p.size ∧
      p.size ≤ (playerMoveUpdate now orbR rifts orbs p dx dy).1.y ∧
      (playerMoveUpdate now orbR rifts orbs p dx dy).1.y ≤
        worldSizeOf p.dimension - p.size)
    ∧ ((playerMoveUpdate now orbR rifts orbs p dx dy).1.dimension ≠
        p.dimension →
      ∃ t : Dim,
        (playerMoveUpdate now orbR rifts orbs p dx dy).1.dimension =
          some t ∧
        (playerMoveUpdate now orbR rifts orbs p dx dy).1.x =
          worldSizeOf (some t) / 2 ∧
        (playerMoveUpdate now orbR rifts orbs p dx dy).1.y =
          worldSizeOf (some t) / 2 ∧
        p.size ≤ worldSizeOf (some t) / 2 ∧
        worldSizeOf (some t) / 2 ≤ worldSizeOf (some t) - p.size) := by
  have hws := worldSizeOf_ge p.dimension
  obtain ⟨hcx, hcy, hcd⟩ := collect_preserves orbR (movedPlayer p dx dy) orbs
  have hmx : (movedPlayer p dx dy).x =
      clampCoord p.size (worldSizeOf p.dimension) dx := rfl
  have hmy : (movedPlayer p dx dy).y =
      clampCoord p.size (worldSizeOf p.dimension) dy := rfl
  have hmd : (movedPlayer p dx dy).dimension = p.dimension := rfl
  have hlo : ∀ v : ℚ, p.size ≤ clampCoord p.size (worldSizeOf p.dimension) v :=
    fun v => le_max_left _ _
  have hhi : ∀ v : ℚ,
      clampCoord p.size (worldSizeOf p.dimension) v ≤
        worldSizeOf p.dimension - p.size :=
    fun v => max_le (by linarith) (min_le_left _ _)
  rcases hd : (checkPlayerOrbCollisions orbR (movedPlayer p dx dy)
      orbs).1.dimension with _ | d0
  · rcases hf : rifts.find?
        (riftHit (checkPlayerOrbCollisions orbR (movedPlayer p dx dy)
          orbs).1) with _ | r
    · constructor
      · intro _
        simp only [playerMoveUpdate, riftEntry, hd, hf]
        rw [hcx, hcy, hmx, hmy]
        exact ⟨hlo dx, hhi dx, hlo dy, hhi dy⟩
      · intro habs
        exfalso
        apply habs
        simp only [playerMoveUpdate, riftEntry, hd, hf]
        rw [hd.symm.trans (hcd.trans hmd)]
    · have hpd : p.dimension = none := by
        rw [← hmd, ← hcd, hd]
      have hws2 := worldSizeOf_ge (some r.type)
      constructor
      · intro habs
        simp only [playerMoveUpdate, riftEntry, hd, hf] at habs
        rw [hpd] at habs
        exact absurd habs (by simp [enterDimension])
      · intro _
        refine ⟨r.type, ?_, ?_, ?_, by linarith, by linarith⟩ <;>
          simp [playerMoveUpdate, riftEntry, hd, hf, enterDimension]
  · constructor
    · intro _
      simp only [playerMoveUpdate, riftEntry, hd]
      rw [hcx, hcy, hmx, hmy]
      exact ⟨hlo dx, hhi dx, hlo dy, hhi dy⟩
    · intro habs
      exfalso
      apply habs
      simp only [playerMoveUpdate, riftEntry, hd]
      rw [hd.symm.trans (hcd.trans hmd)]

/-- Witness for C10 (amended): a size-20 player in the primary world with
no rifts and no orbs nearby, sent the out-of-range coordinates
(3000, -5), ends up inside `[20, 1980]`. -/
theorem playerMove_clamps_within_world_witness :
    entrantPlayer.size ≤ (playerMoveUpdate 0
        { idStr := "o", rx := 0, ry := 0, rs := 0 } [] [] entrantPlayer
        3000 (-5)).1.x ∧
    (playerMoveUpdate 0 { idStr := "o", rx := 0, ry := 0, rs := 0 } [] []
        entrantPlayer 3000 (-5)).1.x ≤
      worldSizeOf entrantPlayer.dimension - entrantPlayer.size ∧
    entrantPlayer.size ≤ (playerMoveUpdate 0
        { idStr := "o", rx := 0, ry := 0, rs := 0 } [] [] entrantPlayer
        3000 (-5)).1.y ∧
    (playerMoveUpdate 0 { idStr := "o", rx := 0, ry := 0, rs := 0 } [] []
        entrantPlayer 3000 (-5)).1.y ≤
      worldSizeOf entrantPlayer.dimension - entrantPlayer.size :=
  (playerMove_clamps_within_world 0 { idStr := "o", rx := 0, ry := 0, rs := 0 }
    [] [] entrantPlayer 3000 (-5) (by with_unfolding_all decide)).1
    (by with_unfolding_all decide)

set_option maxRecDepth 8000 in
/-- Counterexample to claim C10 as stated: a player of size 1050 in the
primary world (half-world is 1000) who reports position (0, 0) is clamped
to (1050, 1050), which is not within `[size, worldSize - size]` — the
upper bound `2000 - 1050 = 950` is below the coordinate. -/
theorem playerMove_clamp_counterexample :
    (playerMoveUpdate 0 { idStr := "o", rx := 0, ry := 0, rs := 0 }
        createRifts [] bigPlayer 0 0).1.dimension = none ∧
    (playerMoveUpdate 0 { idStr := "o", rx := 0, ry := 0, rs := 0 }
        createRifts [] bigPlayer 0 0).1.x = 1050 ∧
    (playerMoveUpdate 0 { idStr := "o", rx := 0, ry := 0, rs := 0 }
        createRifts [] bigPlayer 0 0).1.size = 1050 ∧
    ¬ ((playerMoveUpdate 0 { idStr := "o", rx := 0, ry := 0, rs := 0 }
          createRifts [] bigPlayer 0 0).1.x ≤
        worldSizeOf (playerMoveUpdate 0
            { idStr := "o", rx := 0, ry := 0, rs := 0 }
            createRifts [] bigPlayer 0 0).1.dimension -
          (playerMoveUpdate 0 { idStr := "o", rx := 0, ry := 0, rs := 0 }
              createRifts [] bigPlayer 0 0).1.size) := by
  refine ⟨?_, ?_, ?_, ?_⟩ <;> with_unfolding_all decide

end OrbIoServer
